import Mathlib

/-!
Verification of the PPT-video pipeline (skills/ppt): a shallow embedding of
the materials scheduler (video_materials.py), the Kling polling client
(kling_api.py), the ffmpeg composer (video_composer.py) and the pipeline
driver (generate_ppt_video.py), together with proofs of the specified
properties.  External effects (network calls, the filesystem, ffmpeg, the
wall clock) are passed in as explicit oracle functions; Python exceptions
are modelled with `Except`/`Option`; Python dicts are modelled as
association lists with insert-or-overwrite semantics.
-/

/-! ## Path and key derivation

Models `Path(p).stem.split("-")[-1]` (CPython `pathlib` stem rule and
`str.split` with a one-character separator), used to derive the slide
number and the transition pair key from a slide file path. -/

/-- CPython `s.split(sep)` for a one-character separator, on char lists.
Always returns a non-empty list. -/
def splitChar (sep : Char) : List Char → List (List Char)
  | [] => [[]]
  | c :: cs =>
    match splitChar sep cs with
    | [] => [[c]]
    | h :: t => if c = sep then [] :: h :: t else (c :: h) :: t

/-- The final path component, `Path(p).name` (for paths without a trailing
separator, which is the only form produced by the pipeline). -/
def pathName (p : String) : List Char :=
  (splitChar '/' p.data).getLastD []

/-- CPython `Path(p).stem`: the name with its last suffix removed; the last
dot counts as a suffix separator only when it is neither the first nor the
last character of the name. -/
def pathStem (p : String) : List Char :=
  let name := pathName p
  match name.reverse.findIdx? (fun c => c = '.') with
  | none => name
  | some j =>
    let i := name.length - 1 - j
    if 0 < i ∧ i < name.length - 1 then name.take i else name

/-- `Path(p).stem.split("-")[-1]`: the trailing number of a slide filename
(video_materials.py lines 176-177). -/
def trailingNum (p : String) : List Char :=
  (splitChar '-' (pathStem p)).getLastD []

/-- The transition pair key `from_num-to_num`
(video_materials.py line 178). -/
def transitionKey (pFrom pTo : String) : String :=
  ⟨trailingNum pFrom ++ '-' :: trailingNum pTo⟩

/-! ## Python dict model -/

/-- Python dict assignment `d[k] = v`: overwrite in place if the key is
present, else append. -/
def dictInsert {α : Type} (d : List (String × α)) (k : String) (v : α) :
    List (String × α) :=
  if d.any (fun kv => kv.1 == k) then
    d.map (fun kv => if kv.1 = k then (k, v) else kv)
  else d ++ [(k, v)]

/-- Python dict lookup `d[k]` / `k in d`. -/
def lookupDict {α : Type} (d : List (String × α)) (k : String) : Option α :=
  List.lookup k d

/-! ## Async video job client (kling_api.py)

`wait_for_completion` polls the provider task status at a fixed interval
until a terminal status, a failure, or the wall-clock timeout.  The status
oracle `query n` is the provider response to the n-th poll; the idealized
wall clock advances by `pollInterval` per sleep, so the elapsed time when
the n-th loop iteration starts is `n * pollInterval`.  The extra `Nat`
fuel argument bounds the recursion; the termination theorems show
`timeout / pollInterval + 2` fuel is never exhausted. -/

/-- Provider task data observed by one status query
(the fields of the `data` object used by kling_api.py). -/
structure TaskData where
  task_status : String
  task_status_msg : Option String
  video_urls : List String
deriving DecidableEq, Repr

/-- Outcome of `wait_for_completion`: normal return, `TimeoutError`, or
`KlingTaskError` (raised both for provider-reported failure and for an
unknown status). -/
inductive WaitOutcome where
  | ok (data : TaskData)
  | timedOut (elapsed : Nat)
  | taskFailed (msg : String)
deriving DecidableEq, Repr

/-- Message of the `KlingTaskError` raised on provider failure
(kling_api.py line 296). -/
def taskFailedMsg (taskId msg : String) : String :=
  "Task failed (ID: " ++ taskId ++ "): " ++ msg

/-- Message of the `KlingTaskError` raised on an unknown status
(kling_api.py line 302). -/
def unknownStatusMsg (status : String) : String :=
  "Unknown task status: " ++ status

/-- The provider statuses of the spec data model. -/
def validStatus (s : String) : Bool :=
  s == "submitted" || s == "processing" || s == "succeed" || s == "failed"

/-- Terminal provider statuses. -/
def isTerminalStatus (s : String) : Bool :=
  s == "succeed" || s == "failed"

/-- `KlingVideoGenerator.wait_for_completion` (kling_api.py lines 257-302):
check the wall clock against the timeout, query the status, return on
`succeed`, raise on `failed` or an unknown status, else sleep one poll
interval and loop. -/
def wait_for_completion (query : Nat → TaskData) (taskId : String)
    (timeout pollInterval : Nat) : Nat → Nat → Option WaitOutcome
  | 0, _ => none
  | fuel + 1, n =>
    let elapsed := n * pollInterval
    if timeout < elapsed then some (.timedOut elapsed)
    else
      let td := query n
      if td.task_status = "succeed" then some (.ok td)
      else if td.task_status = "failed" then
        some (.taskFailed (taskFailedMsg taskId (td.task_status_msg.getD "Unknown error")))
      else if td.task_status = "submitted" ∨ td.task_status = "processing" then
        wait_for_completion query taskId timeout pollInterval fuel (n + 1)
      else some (.taskFailed (unknownStatusMsg td.task_status))

/-! ## Materials scheduler (video_materials.py)

Per-job effects are oracles: `promptGen` models
`prompt_generator.generate_prompt` (raising modelled as `Except.error`),
`previewPromptGen` models `generate_preview_prompt`, `klingGen` models
`KlingVideoGenerator.generate_and_download` applied to
(start frame, optional end frame, prompt, output path, duration, mode),
and `elapsedOf i` / `previewElapsed` / `batchElapsed` are the wall-clock
readings the code takes with `time.time()`. -/

/-- Python exception values that reach a worker boundary, by kind.  The
recorded `str(e)` keeps the kinds apart, so the model records the tagged
value itself. -/
inductive PyErr where
  | lookupError (key : String)
  | klingAPIError (msg : String)
  | klingTaskError (msg : String)
  | timeoutError (msg : String)
  | otherError (msg : String)
deriving DecidableEq, Repr

/-- The per-transition result dict built by `_generate_single_transition`
(video_materials.py lines 204-220). -/
structure TransResult where
  from_to : String
  video_path : String
  prompt : String
  duration : Nat
  success : Bool
  error : Option PyErr
deriving DecidableEq, Repr

/-- `_generate_single_transition` (video_materials.py lines 153-220): derive
the pair key, generate the prompt, call the provider, and convert any
exception into a failed result.  The second component records whether the
provider call was reached. -/
def generateSingleTransition
    (promptGen : String → String → Option String → Except PyErr String)
    (klingGen : String → Option String → String → String → String → String → Except PyErr Unit)
    (elapsed : Nat) (slideFrom slideTo outputPath : String) (contentContext : Option String)
    (duration mode : String) : TransResult × Bool :=
  let tkey := transitionKey slideFrom slideTo
  match promptGen slideFrom slideTo contentContext with
  | .error e =>
    ({ from_to := tkey, video_path := outputPath, prompt := "", duration := 0,
       success := false, error := some e }, false)
  | .ok tprompt =>
    match klingGen slideFrom (some slideTo) tprompt outputPath duration mode with
    | .ok _ =>
      ({ from_to := tkey, video_path := outputPath, prompt := tprompt, duration := elapsed,
         success := true, error := none }, true)
    | .error e =>
      ({ from_to := tkey, video_path := outputPath, prompt := "", duration := 0,
         success := false, error := some e }, true)

/-- The i-th transition task descriptor built by `generate_transition_videos`
(video_materials.py lines 262-272): start slide, end slide, output path,
content context. -/
def transitionTask (slides : List String) (outputDir : String)
    (contexts : Option (List String)) (i : Nat) :
    String × String × String × Option String :=
  let sFrom := slides.getD i ""
  let sTo := slides.getD (i + 1) ""
  (sFrom, sTo,
   outputDir ++ "/transition_" ++ ⟨trailingNum sFrom⟩ ++ "_to_" ++ ⟨trailingNum sTo⟩ ++ ".mp4",
   match contexts with
   | some cs => if i < cs.length then some (cs.getD i "") else none
   | none => none)

/-- One worker executing the i-th task end to end. -/
def runTransitionTask
    (promptGen : String → String → Option String → Except PyErr String)
    (klingGen : String → Option String → String → String → String → String → Except PyErr Unit)
    (elapsedOf : Nat → Nat) (duration mode : String)
    (slides : List String) (outputDir : String) (contexts : Option (List String))
    (i : Nat) : TransResult × Bool :=
  let t := transitionTask slides outputDir contexts i
  generateSingleTransition promptGen klingGen (elapsedOf i) t.1 t.2.1 t.2.2.1 t.2.2.2
    duration mode

/-- The pair key of the i-th consecutive slide pair. -/
def taskKeyAt (slides : List String) (i : Nat) : String :=
  transitionKey (slides.getD i "") (slides.getD (i + 1) "")

/-- `generate_transition_videos` (video_materials.py lines 222-329): run the
N-1 transition tasks on the pool and record each terminal result in the
results dict keyed by its pair key, in completion order.  `order` is the
nondeterministic `as_completed` order, a permutation of the task indices. -/
def generateTransitionVideos
    (promptGen : String → String → Option String → Except PyErr String)
    (klingGen : String → Option String → String → String → String → String → Except PyErr Unit)
    (elapsedOf : Nat → Nat) (duration mode : String) (order : List Nat)
    (slides : List String) (outputDir : String) (contexts : Option (List String)) :
    List (String × TransResult) :=
  order.foldl (fun d i =>
    let r := (runTransitionTask promptGen klingGen elapsedOf duration mode
      slides outputDir contexts i).1
    dictInsert d r.from_to r) []

/-- The preview result dict (video_materials.py lines 139-143). -/
structure PreviewResult where
  video_path : String
  prompt : String
  duration : Nat
deriving DecidableEq, Repr

/-- `generate_preview_video` (video_materials.py lines 88-147): generate the
preview prompt, call the provider with the first slide as both frames, and
re-raise any failure. -/
def generatePreviewVideo
    (previewPromptGen : String → Except PyErr String)
    (klingGen : String → Option String → String → String → String → String → Except PyErr Unit)
    (elapsed : Nat) (firstSlidePath outputDir duration mode : String) :
    Except PyErr PreviewResult := do
  let p ← previewPromptGen firstSlidePath
  let outputPath := outputDir ++ "/preview.mp4"
  let _ ← klingGen firstSlidePath (some firstSlidePath) p outputPath duration mode
  pure { video_path := outputPath, prompt := p, duration := elapsed }

/-- The aggregate batch result dict built by `generate_all_materials`
(video_materials.py lines 387-393). -/
structure AllMaterials where
  preview : Option PreviewResult
  transitions : List (String × TransResult)
  total_duration : Nat
  success_count : Nat
  failed_count : Nat
deriving DecidableEq, Repr

/-- `save_metadata` (video_materials.py lines 335-352): the metadata file
written, as (path, contents). -/
def save_metadata (outputDir : String) (metadata : AllMaterials) :
    String × AllMaterials :=
  (outputDir ++ "/video_metadata.json", metadata)

/-- `generate_all_materials` (video_materials.py lines 358-446): optional
preview job with its failure caught and counted, then all transition jobs,
then the aggregate counts and total wall-clock duration, persisted via
`save_metadata`.  Returns the aggregate and the persisted file. -/
def generateAllMaterials
    (previewPromptGen : String → Except PyErr String)
    (promptGen : String → String → Option String → Except PyErr String)
    (klingGen : String → Option String → String → String → String → String → Except PyErr Unit)
    (elapsedOf : Nat → Nat) (previewElapsed : Nat) (order : List Nat)
    (slides : List String) (outputDir : String) (contexts : Option (List String))
    (duration mode : String) (skipPreview : Bool) (batchElapsed : Nat) :
    AllMaterials × (String × AllMaterials) :=
  let pre : Option PreviewResult × Nat × Nat :=
    if skipPreview then (none, 0, 0)
    else
      match generatePreviewVideo previewPromptGen klingGen previewElapsed
        (slides.getD 0 "") outputDir duration mode with
      | .ok r => (some r, 1, 0)
      | .error _ => (none, 0, 1)
  let transitions := generateTransitionVideos promptGen klingGen elapsedOf duration mode
    order slides outputDir contexts
  let result : AllMaterials :=
    { preview := pre.1
      transitions := transitions
      total_duration := batchElapsed
      success_count := pre.2.1 + transitions.countP (fun kv => kv.2.success)
      failed_count := pre.2.2 + transitions.countP (fun kv => !kv.2.success) }
  (result, save_metadata outputDir result)

/-- Modelled from the spec: `PromptFileReader.generate_prompt` (module
`prompt_file_reader`, imported by video_materials.py line 17 but absent
from the sources).  Per spec section 4.2, the File-Backed prompt source
looks up the pair key in a pre-loaded mapping and fails with a lookup
error if the key is absent. -/
def promptFileReaderGeneratePrompt (prompts : List (String × String))
    (frameStart frameEnd : String) (contentContext : Option String) :
    Except PyErr String :=
  let key := transitionKey frameStart frameEnd
  match lookupDict prompts key with
  | some p => .ok p
  | none => .error (.lookupError key)

/-- Concrete poll trace used by the polling witnesses: two non-terminal
polls, then success. -/
def pollTrace : Nat → TaskData := fun n =>
  if n < 2 then { task_status := "processing", task_status_msg := none, video_urls := [] }
  else { task_status := "succeed", task_status_msg := none, video_urls := ["u"] }

/-- Slide list used by the scheduler witnesses. -/
def wSlides : List String := ["img/slide-01.png", "img/slide-02.png", "img/slide-03.png"]

/-- Prompt oracle used by the scheduler witnesses: always succeeds. -/
def wPromptGen : String → String → Option String → Except PyErr String :=
  fun _ _ _ => .ok "dissolve into the next slide"

/-- Provider oracle used by the scheduler witnesses: fails except when the
start frame is the first slide. -/
def wKlingGen : String → Option String → String → String → String → String → Except PyErr Unit :=
  fun s _ _ _ _ _ => if s = "img/slide-01.png" then .ok () else .error (.klingAPIError "quota")

/-- Prompt mapping used by the lookup-failure witness: has only key 01-02. -/
def wPrompts : List (String × String) := [("01-02", "dissolve")]

/-- Preview-prompt oracle used by witnesses where the preview job fails. -/
def wPreviewPromptFail : String → Except PyErr String :=
  fun _ => .error (.klingAPIError "boom")

/-! ## Sequence composer (video_composer.py)

Filesystem existence and ffmpeg invocations are oracles: `fsExists` models
`os.path.exists` and `runOk` models `_run_ffmpeg` on a symbolic command. -/

/-- An ffmpeg invocation issued by the composer. -/
inductive FfmpegJob where
  | staticJob (imagePath outputPath : String) (duration : Nat) (resolution : String) (fps : Nat)
  | concatJob (videos : List String) (outputPath : String) (resolution : String) (fps : Nat)
deriving DecidableEq, Repr

/-- `create_static_video` (video_composer.py lines 127-179): missing image
or a failed ffmpeg run yields no output path. -/
def createStaticVideo (fsExists : String → Bool) (runOk : FfmpegJob → Bool)
    (imagePath : String) (duration : Nat) (outputPath : String)
    (resolution : String) (fps : Nat) : Option String :=
  if fsExists imagePath then
    if runOk (.staticJob imagePath outputPath duration resolution fps) then some outputPath
    else none
  else none

/-- `concat_videos` with `normalize_params=True` (video_composer.py lines
185-221 and 263-319): reject an empty list, reject any missing input,
then run the normalizing concat filter. -/
def concatVideos (fsExists : String → Bool) (runOk : FfmpegJob → Bool)
    (videoList : List String) (outputPath : String) (resolution : String) (fps : Nat) :
    Bool :=
  if videoList = [] then false
  else if videoList.all fsExists then
    runOk (.concatJob videoList outputPath resolution fps)
  else false

/-- The static-clip loop of `compose_full_ppt_video` (video_composer.py
lines 377-400): one static clip per arrival slide, into the temp
directory, aborting on the first failure with the failing slide number. -/
def buildStatics (fsExists : String → Bool) (runOk : FfmpegJob → Bool)
    (slideDuration : Nat) (resolution : String) (fps : Nat) (tempDir : String) :
    List String → List (String × String) → Except String (List (String × String))
  | [], acc => .ok acc
  | slidePath :: rest, acc =>
    let num : String := ⟨trailingNum slidePath⟩
    let staticPath := tempDir ++ "/slide-" ++ num ++ "-static.mp4"
    match createStaticVideo fsExists runOk slidePath slideDuration staticPath resolution fps with
    | some p => buildStatics fsExists runOk slideDuration resolution fps tempDir rest
        (dictInsert acc num p)
    | none => .error num

/-- The sequence-building loop of `compose_full_ppt_video` (video_composer.py
lines 402-433): optional preview, then per pair the transition clip when
its key is present and the file exists, then the static clip of the
arrival slide when recorded. -/
def buildSequence (fsExists : String → Bool) (slides : List String)
    (transitionsDict : List (String × String)) (staticVideos : List (String × String))
    (includePreview : Bool) (previewVideoPath : Option String) : List String :=
  let pre : List String :=
    match includePreview, previewVideoPath with
    | true, some p => if p ≠ "" ∧ fsExists p then [p] else []
    | _, _ => []
  pre ++ (List.range (slides.length - 1)).foldr (fun i acc =>
    (let fromNum : String := ⟨trailingNum (slides.getD i "")⟩
     let toNum : String := ⟨trailingNum (slides.getD (i + 1) "")⟩
     let tkey := fromNum ++ "-" ++ toNum
     (match lookupDict transitionsDict tkey with
      | some tp => if fsExists tp then [tp] else []
      | none => []) ++
     (match lookupDict staticVideos toNum with
      | some sp => [sp]
      | none => [])) ++ acc) []

/-- The stage a composition run failed at, as reported by the failure
messages of `compose_full_ppt_video`. -/
inductive ComposeStage where
  | staticClip (slideNum : String)
  | emptySequence
  | concatStep
deriving DecidableEq, Repr

/-- The outcome of one `compose_full_ppt_video` invocation. -/
structure ComposeResult where
  success : Bool
  sequence : List String
  failedStage : Option ComposeStage
  tempDirRemoved : Bool
deriving DecidableEq, Repr

/-- The `try` body of `compose_full_ppt_video` (video_composer.py lines
376-461), with its three return paths: static-clip failure, empty
sequence, and the concatenation result. -/
def composeTryBody (fsExists : String → Bool) (runOk : FfmpegJob → Bool)
    (slides : List String) (transitionsDict : List (String × String))
    (outputPath : String) (slideDuration : Nat) (includePreview : Bool)
    (previewVideoPath : Option String) (resolution : String) (fps : Nat)
    (tempDir : String) : Bool × List String × Option ComposeStage :=
  match buildStatics fsExists runOk slideDuration resolution fps tempDir (slides.drop 1) [] with
  | .error num => (false, [], some (.staticClip num))
  | .ok staticVideos =>
    let seq := buildSequence fsExists slides transitionsDict staticVideos includePreview
      previewVideoPath
    if seq = [] then (false, seq, some .emptySequence)
    else
      let ok := concatVideos fsExists runOk seq outputPath resolution fps
      (ok, seq, if ok then none else some .concatStep)

/-- `compose_full_ppt_video` (video_composer.py lines 325-468): the try
body wrapped in `try/finally`; the `finally` removes the scoped temp
directory on every exit path. -/
def compose_full_ppt_video (fsExists : String → Bool) (runOk : FfmpegJob → Bool)
    (slides : List String) (transitionsDict : List (String × String))
    (outputPath : String) (slideDuration : Nat) (includePreview : Bool)
    (previewVideoPath : Option String) (resolution : String) (fps : Nat)
    (tempDir : String) : ComposeResult :=
  let body := composeTryBody fsExists runOk slides transitionsDict outputPath slideDuration
    includePreview previewVideoPath resolution fps tempDir
  { success := body.1, sequence := body.2.1, failedStage := body.2.2, tempDirRemoved := true }

/-- Slide list of the four-slide composition scenario. -/
def c2Slides : List String :=
  ["imgs/slide-01.png", "imgs/slide-02.png", "imgs/slide-03.png", "imgs/slide-04.png"]

/-- Successful-transition map of the scenario: transitions (1-2) and (3-4)
succeeded, (2-3) did not. -/
def c2Transitions : List (String × String) :=
  [("01-02", "videos/transition_01_to_02.mp4"), ("03-04", "videos/transition_03_to_04.mp4")]

/-! ## Pipeline driver (generate_ppt_video.py) -/

/-- The transitions dict the pipeline passes to the composer
(generate_ppt_video.py lines 165-169): only successful transitions. -/
def pipelineTransitionsDict (materials : AllMaterials) : List (String × String) :=
  materials.transitions.filterMap (fun kv =>
    if kv.2.success then some (kv.1, kv.2.video_path) else none)

/-- The preview path the pipeline passes to the composer
(generate_ppt_video.py lines 173-175). -/
def pipelinePreviewVideo (materials : AllMaterials) (skipPreview : Bool) : Option String :=
  match materials.preview with
  | some pr => if !skipPreview then some pr.video_path else none
  | none => none

/-- The composer invocation of the pipeline (generate_ppt_video.py lines
177-184): `include_preview` is fixed to `False`, resolution and fps take
the composer defaults. -/
def pipelineComposeCall (fsExists : String → Bool) (runOk : FfmpegJob → Bool)
    (slides : List String) (materials : AllMaterials) (outputDir : String)
    (slideDuration : Nat) (skipPreview : Bool) (tempDir : String) : ComposeResult :=
  compose_full_ppt_video fsExists runOk slides (pipelineTransitionsDict materials)
    (outputDir ++ "/full_ppt_video.mp4") slideDuration false
    (pipelinePreviewVideo materials skipPreview) "1920x1080" 24 tempDir

/-! ## Worker pool concurrency model (video_materials.py lines 282-294)

`generate_transition_videos` dispatches all transition tasks to
`ThreadPoolExecutor(max_workers=self.max_concurrent)`.  The pool is
modelled as a transition system: a pending task may start only while
fewer than `maxWorkers` tasks run, and a running task may finish.  A
worker holds its unresolved provider task only while it runs, so the
bound on running workers bounds the unresolved provider tasks. -/

/-- A worker-pool state: task indices pending, running, and finished. -/
structure PoolState where
  pending : List Nat
  running : List Nat
  finished : List Nat
  maxWorkers : Nat
deriving DecidableEq, Repr

/-- One scheduling event of the bounded pool. -/
inductive PoolStep : PoolState → PoolState → Prop where
  | start (s : PoolState) (i : Nat) (hi : i ∈ s.pending)
      (hcap : s.running.length < s.maxWorkers) :
      PoolStep s { pending := s.pending.erase i, running := i :: s.running,
                   finished := s.finished, maxWorkers := s.maxWorkers }
  | finish (s : PoolState) (i : Nat) (hi : i ∈ s.running) :
      PoolStep s { pending := s.pending, running := s.running.erase i,
                   finished := i :: s.finished, maxWorkers := s.maxWorkers }

/-- The pool state at batch start: all transition tasks pending, none
running, pool sized `max_concurrent`. -/
def schedulerInit (numTransitions maxConcurrent : Nat) : PoolState :=
  { pending := List.range numTransitions, running := [], finished := [],
    maxWorkers := maxConcurrent }

/-- `DEFAULT_MAX_CONCURRENT` (video_materials.py line 24). -/
def DEFAULT_MAX_CONCURRENT : Nat := 3

/-- A state one start-step from the initial two-task pool. -/
def poolDemoState : PoolState :=
  { pending := (List.range 2).erase 0, running := [0], finished := [], maxWorkers := 3 }

/-! ## Theorems -/

/-! ## Lemmas about key derivation -/

theorem splitChar_ne_nil (sep : Char) (cs : List Char) : splitChar sep cs ≠ [] := by
  cases cs with
  | nil => simp [splitChar]
  | cons c cs =>
    simp only [splitChar]
    rcases h : splitChar sep cs with _ | ⟨h', t⟩
    · simp
    · by_cases hc : c = sep <;> simp [hc]

theorem sep_not_mem_getLastD_splitChar (sep : Char) (cs : List Char) :
    sep ∉ (splitChar sep cs).getLastD [] := by
  induction cs with
  | nil => simp [splitChar]
  | cons c cs ih =>
    simp only [splitChar]
    rcases h : splitChar sep cs with _ | ⟨h', t⟩
    · exact absurd h (splitChar_ne_nil sep cs)
    · rw [h] at ih
      by_cases hc : c = sep
      · simp only [hc, if_pos rfl]
        simpa [List.getLastD_cons] using ih
      · simp only [if_neg hc]
        rcases t with _ | ⟨x, t'⟩
        · simp only [List.getLastD_cons, List.getLastD_nil] at ih ⊢
          intro hmem
          rcases List.mem_cons.mp hmem with h1 | h2
          · exact hc h1.symm
          · exact ih h2
        · simpa [List.getLastD_cons] using ih

theorem dash_not_mem_trailingNum (p : String) : '-' ∉ trailingNum p :=
  sep_not_mem_getLastD_splitChar '-' (pathStem p)

theorem append_sep_inj {sep : Char} :
    ∀ {a c : List Char} {b d : List Char}, sep ∉ a → sep ∉ c →
      a ++ sep :: b = c ++ sep :: d → a = c ∧ b = d := by
  intro a
  induction a with
  | nil =>
    intro c b d _ hc h
    cases c with
    | nil => simpa using h
    | cons y c' =>
      simp only [List.nil_append, List.cons_append, List.cons.injEq] at h
      exact absurd h.1.symm (by intro hy; exact hc (hy ▸ List.mem_cons_self y c'))
  | cons x a' ih =>
    intro c b d ha hc h
    cases c with
    | nil =>
      simp only [List.nil_append, List.cons_append, List.cons.injEq] at h
      exact absurd h.1 (by intro hx; exact ha (hx ▸ List.mem_cons_self x a'))
    | cons y c' =>
      simp only [List.cons_append, List.cons.injEq] at h
      obtain ⟨hxy, h2⟩ := h
      have ha' : sep ∉ a' := fun hm => ha (List.mem_cons_of_mem x hm)
      have hc' : sep ∉ c' := fun hm => hc (List.mem_cons_of_mem y hm)
      obtain ⟨he, hb⟩ := ih ha' hc' h2
      exact ⟨by rw [hxy, he], hb⟩

theorem transitionKey_inj {p1 p2 q1 q2 : String}
    (h : transitionKey p1 p2 = transitionKey q1 q2) :
    trailingNum p1 = trailingNum q1 ∧ trailingNum p2 = trailingNum q2 := by
  have hd := congrArg String.data h
  simp only [transitionKey] at hd
  exact append_sep_inj (dash_not_mem_trailingNum p1) (dash_not_mem_trailingNum q1) hd

theorem wait_isSome (query : Nat → TaskData) (taskId : String) (timeout pollInterval : Nat)
    (hp : 0 < pollInterval) :
    ∀ fuel n, 1 ≤ fuel → timeout / pollInterval + 2 ≤ fuel + n →
      (wait_for_completion query taskId timeout pollInterval fuel n).isSome := by
  intro fuel
  induction fuel with
  | zero => intro n h1 _; omega
  | succ f ih =>
    intro n _ hfn
    by_cases ht : timeout < n * pollInterval
    · simp [wait_for_completion, ht]
    · have hn : n ≤ timeout / pollInterval :=
        (Nat.le_div_iff_mul_le hp).2 (by omega)
      simp only [wait_for_completion, if_neg ht]
      by_cases h1 : (query n).task_status = "succeed"
      · simp [h1]
      · by_cases h2 : (query n).task_status = "failed"
        · simp [h1, h2]
        · by_cases h3 : (query n).task_status = "submitted" ∨ (query n).task_status = "processing"
          · simp only [if_neg h1, if_neg h2, if_pos h3]
            exact ih (n + 1) (by omega) (by omega)
          · simp [h1, h2, h3]

theorem wait_nonterminal_timeout (query : Nat → TaskData) (taskId : String)
    (timeout pollInterval : Nat) (hp : 0 < pollInterval) :
    ∀ fuel n, 1 ≤ fuel → timeout / pollInterval + 2 ≤ fuel + n →
      (∀ m, n ≤ m → m ≤ timeout / pollInterval →
        validStatus (query m).task_status = true ∧
        isTerminalStatus (query m).task_status = false) →
      ∃ e, wait_for_completion query taskId timeout pollInterval fuel n =
          some (.timedOut e) ∧ timeout < e := by
  intro fuel
  induction fuel with
  | zero => intro n h1 _ _; omega
  | succ f ih =>
    intro n _ hfn hq
    by_cases ht : timeout < n * pollInterval
    · exact ⟨n * pollInterval, by simp [wait_for_completion, ht], ht⟩
    · have hn : n ≤ timeout / pollInterval :=
        (Nat.le_div_iff_mul_le hp).2 (by omega)
      obtain ⟨hv, hnt⟩ := hq n le_rfl hn
      simp only [validStatus, Bool.or_eq_true, beq_iff_eq] at hv
      have h1 : ¬((query n).task_status = "succeed") := by
        intro h; rw [h] at hnt; exact absurd hnt (by decide)
      have h2 : ¬((query n).task_status = "failed") := by
        intro h; rw [h] at hnt; exact absurd hnt (by decide)
      have h3 : (query n).task_status = "submitted" ∨ (query n).task_status = "processing" := by
        rcases hv with ((h | h) | h) | h
        · exact Or.inl h
        · exact Or.inr h
        · exact absurd h h1
        · exact absurd h h2
      obtain ⟨e, he, hte⟩ := ih (n + 1) (by omega) (by omega)
        (fun m hm hm2 => hq m (by omega) hm2)
      refine ⟨e, ?_, hte⟩
      simp only [wait_for_completion, if_neg ht, if_neg h1, if_neg h2, if_pos h3]
      exact he

theorem wait_first_terminal (query : Nat → TaskData) (taskId : String)
    (timeout pollInterval : Nat) (hp : 0 < pollInterval) :
    ∀ fuel n n0, n ≤ n0 → n0 ≤ timeout / pollInterval → 1 ≤ fuel →
      timeout / pollInterval + 2 ≤ fuel + n →
      (∀ m, n ≤ m → m < n0 →
        validStatus (query m).task_status = true ∧
        isTerminalStatus (query m).task_status = false) →
      isTerminalStatus (query n0).task_status = true →
      wait_for_completion query taskId timeout pollInterval fuel n =
        (if (query n0).task_status = "succeed" then some (.ok (query n0))
         else some (.taskFailed
           (taskFailedMsg taskId ((query n0).task_status_msg.getD "Unknown error")))) := by
  intro fuel
  induction fuel with
  | zero => intro n n0 _ _ h1 _ _ _; omega
  | succ f ih =>
    intro n n0 hn0 hn0d _ hfn hq hterm
    have hnd : n ≤ timeout / pollInterval := le_trans hn0 hn0d
    have ht : ¬(timeout < n * pollInterval) := by
      have := (Nat.le_div_iff_mul_le hp).1 hnd
      omega
    by_cases heq : n = n0
    · subst heq
      simp only [isTerminalStatus, Bool.or_eq_true, beq_iff_eq] at hterm
      by_cases h1 : (query n).task_status = "succeed"
      · simp [wait_for_completion, ht, h1]
      · have h2 : (query n).task_status = "failed" := by tauto
        simp [wait_for_completion, ht, h1, h2]
    · have hlt : n < n0 := lt_of_le_of_ne hn0 heq
      obtain ⟨hv, hnt⟩ := hq n le_rfl hlt
      simp only [validStatus, Bool.or_eq_true, beq_iff_eq] at hv
      have h1 : ¬((query n).task_status = "succeed") := by
        intro h; rw [h] at hnt; exact absurd hnt (by decide)
      have h2 : ¬((query n).task_status = "failed") := by
        intro h; rw [h] at hnt; exact absurd hnt (by decide)
      have h3 : (query n).task_status = "submitted" ∨ (query n).task_status = "processing" := by
        rcases hv with ((h | h) | h) | h
        · exact Or.inl h
        · exact Or.inr h
        · exact absurd h h1
        · exact absurd h h2
      simp only [wait_for_completion, if_neg ht, if_neg h1, if_neg h2, if_pos h3]
      exact ih (n + 1) n0 hlt hn0d (by omega) (by omega)
        (fun m hm hm2 => hq m (by omega) hm2) hterm

theorem wait_ok_only_if_succeed (query : Nat → TaskData) (taskId : String)
    (timeout pollInterval : Nat) :
    ∀ fuel n td, wait_for_completion query taskId timeout pollInterval fuel n =
        some (.ok td) → td.task_status = "succeed" := by
  intro fuel
  induction fuel with
  | zero => intro n td h; simp [wait_for_completion] at h
  | succ f ih =>
    intro n td h
    by_cases ht : timeout < n * pollInterval
    · simp [wait_for_completion, ht] at h
    · simp only [wait_for_completion, if_neg ht] at h
      by_cases h1 : (query n).task_status = "succeed"
      · simp only [if_pos h1, Option.some.injEq, WaitOutcome.ok.injEq] at h
        rw [← h]; exact h1
      · by_cases h2 : (query n).task_status = "failed"
        · simp [h1, h2] at h
        · by_cases h3 : (query n).task_status = "submitted" ∨ (query n).task_status = "processing"
          · simp only [if_neg h1, if_neg h2, if_pos h3] at h
            exact ih (n + 1) td h
          · simp [h1, h2, h3] at h

theorem generateSingleTransition_from_to
    (promptGen : String → String → Option String → Except PyErr String)
    (klingGen : String → Option String → String → String → String → String → Except PyErr Unit)
    (elapsed : Nat) (slideFrom slideTo outputPath : String) (contentContext : Option String)
    (duration mode : String) :
    ((generateSingleTransition promptGen klingGen elapsed slideFrom slideTo outputPath
      contentContext duration mode).1).from_to = transitionKey slideFrom slideTo := by
  cases hp : promptGen slideFrom slideTo contentContext with
  | error e => simp [generateSingleTransition, hp]
  | ok p =>
    cases hk : klingGen slideFrom (some slideTo) p outputPath duration mode with
    | error e => simp [generateSingleTransition, hp, hk]
    | ok u => simp [generateSingleTransition, hp, hk]

theorem runTransitionTask_from_to
    (promptGen : String → String → Option String → Except PyErr String)
    (klingGen : String → Option String → String → String → String → String → Except PyErr Unit)
    (elapsedOf : Nat → Nat) (duration mode : String)
    (slides : List String) (outputDir : String) (contexts : Option (List String)) (i : Nat) :
    ((runTransitionTask promptGen klingGen elapsedOf duration mode slides outputDir
      contexts i).1).from_to = taskKeyAt slides i := by
  unfold runTransitionTask transitionTask taskKeyAt
  exact generateSingleTransition_from_to _ _ _ _ _ _ _ _ _

theorem dictInsert_fresh {α : Type} (d : List (String × α)) (k : String) (v : α)
    (h : ∀ kv ∈ d, kv.1 ≠ k) : dictInsert d k v = d ++ [(k, v)] := by
  unfold dictInsert
  rw [if_neg]
  simp only [List.any_eq_true, beq_iff_eq, not_exists]
  intro kv
  intro hand
  exact h kv hand.1 hand.2

theorem foldl_dictInsert_append {α : Type} (f : Nat → String × α) :
    ∀ (is : List Nat) (acc : List (String × α)),
      (∀ i ∈ is, ∀ kv ∈ acc, kv.1 ≠ (f i).1) →
      is.Pairwise (fun i j => (f i).1 ≠ (f j).1) →
      is.foldl (fun d i => dictInsert d (f i).1 (f i).2) acc = acc ++ is.map f := by
  intro is
  induction is with
  | nil => intro acc _ _; simp
  | cons i is' ih =>
    intro acc hacc hpw
    have hfresh : ∀ kv ∈ acc, kv.1 ≠ (f i).1 :=
      fun kv hkv => hacc i (List.mem_cons_self i is') kv hkv
    have hstep : dictInsert acc (f i).1 (f i).2 = acc ++ [f i] := dictInsert_fresh _ _ _ hfresh
    simp only [List.foldl_cons, hstep]
    rw [ih (acc ++ [f i]) ?_ (List.Pairwise.sublist (List.sublist_cons_self i is') hpw)]
    · simp
    · intro j hj kv hkv
      rcases List.mem_append.mp hkv with hkv1 | hkv2
      · exact hacc j (List.mem_cons_of_mem i hj) kv hkv1
      · have : kv = f i := by simpa using hkv2
        rw [this]
        exact (List.pairwise_cons.mp hpw).1 j hj

theorem taskKeyAt_inj (slides : List String)
    (hdist : ∀ i j, i < slides.length → j < slides.length → i ≠ j →
      trailingNum (slides.getD i "") ≠ trailingNum (slides.getD j "")) :
    ∀ i j, i + 1 < slides.length → j + 1 < slides.length → i ≠ j →
      taskKeyAt slides i ≠ taskKeyAt slides j := by
  intro i j hi hj hne h
  obtain ⟨h1, _⟩ := transitionKey_inj h
  exact hdist i j (by omega) (by omega) hne h1

theorem generateTransitionVideos_eq_map
    (promptGen : String → String → Option String → Except PyErr String)
    (klingGen : String → Option String → String → String → String → String → Except PyErr Unit)
    (elapsedOf : Nat → Nat) (duration mode : String) (order : List Nat)
    (slides : List String) (outputDir : String) (contexts : Option (List String))
    (hdist : ∀ i j, i < slides.length → j < slides.length → i ≠ j →
      trailingNum (slides.getD i "") ≠ trailingNum (slides.getD j ""))
    (horder : order.Perm (List.range (slides.length - 1))) :
    generateTransitionVideos promptGen klingGen elapsedOf duration mode order slides
      outputDir contexts =
    order.map (fun i => (taskKeyAt slides i,
      (runTransitionTask promptGen klingGen elapsedOf duration mode slides outputDir
        contexts i).1)) := by
  have hmem : ∀ i ∈ order, i + 1 < slides.length := by
    intro i hi
    have := List.mem_range.mp (horder.mem_iff.mp hi)
    omega
  have hnd : order.Nodup := horder.symm.nodup (List.nodup_range _)
  set f : Nat → String × TransResult := fun i =>
    (taskKeyAt slides i,
      (runTransitionTask promptGen klingGen elapsedOf duration mode slides outputDir
        contexts i).1) with hf
  have hpw : order.Pairwise (fun i j => (f i).1 ≠ (f j).1) := by
    refine List.Pairwise.imp_of_mem ?_ hnd
    intro i j hi hj hne
    exact taskKeyAt_inj slides hdist i j (hmem i hi) (hmem j hj) hne
  have hkey : ∀ i, (runTransitionTask promptGen klingGen elapsedOf duration mode slides
      outputDir contexts i).1.from_to = (f i).1 := by
    intro i
    exact runTransitionTask_from_to _ _ _ _ _ _ _ _ i
  unfold generateTransitionVideos
  have hfold : ∀ (d : List (String × TransResult)) (i : Nat),
      dictInsert d ((runTransitionTask promptGen klingGen elapsedOf duration mode slides
        outputDir contexts i).1).from_to
        (runTransitionTask promptGen klingGen elapsedOf duration mode slides outputDir
          contexts i).1 = dictInsert d (f i).1 (f i).2 := by
    intro d i
    rw [hkey i]
  calc order.foldl (fun d i =>
        dictInsert d ((runTransitionTask promptGen klingGen elapsedOf duration mode slides
          outputDir contexts i).1).from_to
          (runTransitionTask promptGen klingGen elapsedOf duration mode slides outputDir
            contexts i).1) []
      = order.foldl (fun d i => dictInsert d (f i).1 (f i).2) [] := by
        congr 1
        funext d i
        exact hfold d i
    _ = [] ++ order.map f := foldl_dictInsert_append f order [] (by simp) hpw
    _ = order.map f := by simp

theorem countP_split {α : Type} (p : α → Bool) (l : List α) :
    l.countP p + l.countP (fun a => !p a) = l.length := by
  induction l with
  | nil => simp
  | cons a t ih =>
    by_cases h : p a = true <;> simp [List.countP_cons, h] <;> omega

/-- C1: for N ≥ 2 slides whose trailing filename numbers are pairwise
distinct, `generate_transition_videos` returns a results map with exactly
N-1 entries, keyed without duplication or omission by the pair keys of the
consecutive slide pairs, for every completion order and every pattern of
per-job success and failure. -/
theorem scheduler_transition_results_complete
    (promptGen : String → String → Option String → Except PyErr String)
    (klingGen : String → Option String → String → String → String → String → Except PyErr Unit)
    (elapsedOf : Nat → Nat) (duration mode : String) (order : List Nat)
    (slides : List String) (outputDir : String) (contexts : Option (List String))
    (hN : 2 ≤ slides.length)
    (hdist : ∀ i, i < slides.length → ∀ j, j < slides.length → i ≠ j →
      trailingNum (slides.getD i "") ≠ trailingNum (slides.getD j ""))
    (horder : order.Perm (List.range (slides.length - 1))) :
    (generateTransitionVideos promptGen klingGen elapsedOf duration mode order slides
      outputDir contexts).length = slides.length - 1 ∧
    ((generateTransitionVideos promptGen klingGen elapsedOf duration mode order slides
      outputDir contexts).map Prod.fst).Nodup ∧
    ((generateTransitionVideos promptGen klingGen elapsedOf duration mode order slides
      outputDir contexts).map Prod.fst).Perm
      ((List.range (slides.length - 1)).map (fun i => taskKeyAt slides i)) := by
  have hdist' : ∀ i j, i < slides.length → j < slides.length → i ≠ j →
      trailingNum (slides.getD i "") ≠ trailingNum (slides.getD j "") :=
    fun i j hi hj => hdist i hi j hj
  rw [generateTransitionVideos_eq_map promptGen klingGen elapsedOf duration mode order
    slides outputDir contexts hdist' horder]
  have hmem : ∀ i ∈ order, i + 1 < slides.length := by
    intro i hi
    have := List.mem_range.mp (horder.mem_iff.mp hi)
    omega
  have hnd : order.Nodup := horder.symm.nodup (List.nodup_range _)
  have hmapfst : (order.map (fun i => (taskKeyAt slides i,
      (runTransitionTask promptGen klingGen elapsedOf duration mode slides outputDir
        contexts i).1))).map Prod.fst = order.map (fun i => taskKeyAt slides i) := by
    rw [List.map_map]
    rfl
  refine ⟨?_, ?_, ?_⟩
  · rw [List.length_map, horder.length_eq, List.length_range]
  · rw [hmapfst]
    refine List.Nodup.map_on ?_ hnd
    intro i hi j hj hk
    by_contra hne
    exact taskKeyAt_inj slides hdist' i j (hmem i hi) (hmem j hj) hne hk
  · rw [hmapfst]
    exact horder.map _

/-- C5: within the wall-clock timeout, `wait_for_completion` raises
`TimeoutError` when no terminal provider status is observed, raises
`KlingTaskError` carrying the provider message when the provider first
reports `failed`, and returns the task data exactly when the provider
reports `succeed` (and any normal return carries a `succeed` status). -/
theorem wait_for_completion_spec (query : Nat → TaskData) (taskId : String)
    (timeout pollInterval fuel : Nat) (hp : 0 < pollInterval)
    (hfuel : timeout / pollInterval + 2 ≤ fuel)
    (hvalid : ∀ n, n ≤ timeout / pollInterval → validStatus (query n).task_status = true) :
    ((∀ n, n ≤ timeout / pollInterval → isTerminalStatus (query n).task_status = false) →
      ∃ e, wait_for_completion query taskId timeout pollInterval fuel 0 =
          some (.timedOut e) ∧ timeout < e) ∧
    (∀ n0, n0 ≤ timeout / pollInterval →
      (∀ m, m < n0 → isTerminalStatus (query m).task_status = false) →
      isTerminalStatus (query n0).task_status = true →
      (((query n0).task_status = "failed" →
        wait_for_completion query taskId timeout pollInterval fuel 0 =
          some (.taskFailed (taskFailedMsg taskId
            ((query n0).task_status_msg.getD "Unknown error")))) ∧
       ((query n0).task_status = "succeed" →
        wait_for_completion query taskId timeout pollInterval fuel 0 =
          some (.ok (query n0))))) ∧
    (∀ td, wait_for_completion query taskId timeout pollInterval fuel 0 = some (.ok td) →
      td.task_status = "succeed") := by
  refine ⟨?_, ?_, ?_⟩
  · intro hnt
    exact wait_nonterminal_timeout query taskId timeout pollInterval hp fuel 0
      (le_trans (le_trans one_le_two (Nat.le_add_left 2 (timeout / pollInterval))) hfuel)
      (by simpa using hfuel) (fun m _ hm2 => ⟨hvalid m hm2, hnt m hm2⟩)
  · intro n0 hn0 hpre hterm
    have hrun := wait_first_terminal query taskId timeout pollInterval hp fuel 0 n0
      (Nat.zero_le _) hn0
      (le_trans (le_trans one_le_two (Nat.le_add_left 2 (timeout / pollInterval))) hfuel)
      (by simpa using hfuel)
      (fun m _ hm2 => ⟨hvalid m (le_of_lt (lt_of_lt_of_le hm2 hn0)), hpre m hm2⟩) hterm
    constructor
    · intro hfail
      rw [hrun, if_neg (by rw [hfail]; decide)]
    · intro hsucc
      rw [hrun, if_pos hsucc]
  · intro td h
    exact wait_ok_only_if_succeed query taskId timeout pollInterval fuel 0 td h

/-- C10: assuming every status query returns a status string, the polling
loop terminates within `timeout / pollInterval + 2` loop entries — at most
`timeout / pollInterval + 1` polls — always producing a resolved outcome. -/
theorem wait_for_completion_terminates (query : Nat → TaskData) (taskId : String)
    (timeout pollInterval : Nat) (hp : 0 < pollInterval) :
    ∃ r, wait_for_completion query taskId timeout pollInterval
        (timeout / pollInterval + 2) 0 = some r := by
  have h := wait_isSome query taskId timeout pollInterval hp
    (timeout / pollInterval + 2) 0
    (le_trans one_le_two (Nat.le_add_left 2 (timeout / pollInterval)))
    (by simp)
  exact Option.isSome_iff_exists.mp h

theorem wait_for_completion_spec_witness :
    (0 < 5 ∧ 300 / 5 + 2 ≤ 62 ∧
      (∀ n, n ≤ 300 / 5 → validStatus (pollTrace n).task_status = true)) ∧
    wait_for_completion pollTrace "task-1" 300 5 62 0 = some (.ok (pollTrace 2)) := by
  refine ⟨⟨by decide, by decide, by decide⟩, ?_⟩
  have h := (wait_for_completion_spec pollTrace "task-1" 300 5 62 (by decide) (by decide)
    (by decide)).2.1 2 (by decide) (by decide) (by decide)
  exact h.2 (by decide)

theorem wait_for_completion_terminates_witness :
    (0 < 5) ∧ ∃ r, wait_for_completion pollTrace "task-1" 300 5 (300 / 5 + 2) 0 = some r :=
  ⟨by decide, wait_for_completion_terminates pollTrace "task-1" 300 5 (by decide)⟩

/-- C6: when the file-backed prompt source is missing the key of a pair,
the job result is failed with a lookup-kind error, the provider is never
called for that job, and the recorded error is distinguished from every
provider-failure kind. -/
theorem prompt_lookup_failure_before_provider
    (prompts : List (String × String))
    (klingGen : String → Option String → String → String → String → String → Except PyErr Unit)
    (elapsed : Nat) (slideFrom slideTo outputPath : String)
    (contentContext : Option String) (duration mode : String)
    (hmiss : lookupDict prompts (transitionKey slideFrom slideTo) = none) :
    (generateSingleTransition (promptFileReaderGeneratePrompt prompts) klingGen elapsed
      slideFrom slideTo outputPath contentContext duration mode).1.success = false ∧
    (generateSingleTransition (promptFileReaderGeneratePrompt prompts) klingGen elapsed
      slideFrom slideTo outputPath contentContext duration mode).1.error =
      some (.lookupError (transitionKey slideFrom slideTo)) ∧
    (generateSingleTransition (promptFileReaderGeneratePrompt prompts) klingGen elapsed
      slideFrom slideTo outputPath contentContext duration mode).2 = false ∧
    (∀ m, (generateSingleTransition (promptFileReaderGeneratePrompt prompts) klingGen elapsed
      slideFrom slideTo outputPath contentContext duration mode).1.error ≠
        some (.klingAPIError m) ∧
      (generateSingleTransition (promptFileReaderGeneratePrompt prompts) klingGen elapsed
        slideFrom slideTo outputPath contentContext duration mode).1.error ≠
        some (.klingTaskError m) ∧
      (generateSingleTransition (promptFileReaderGeneratePrompt prompts) klingGen elapsed
        slideFrom slideTo outputPath contentContext duration mode).1.error ≠
        some (.timeoutError m)) := by
  have hp : promptFileReaderGeneratePrompt prompts slideFrom slideTo contentContext =
      .error (.lookupError (transitionKey slideFrom slideTo)) := by
    simp only [promptFileReaderGeneratePrompt]
    rw [hmiss]
  refine ⟨?_, ?_, ?_, ?_⟩ <;> simp [generateSingleTransition, hp]

theorem scheduler_transition_results_complete_witness :
    (2 ≤ wSlides.length ∧ ([1, 0] : List Nat).Perm (List.range (wSlides.length - 1))) ∧
    (generateTransitionVideos wPromptGen wKlingGen (fun _ => 7) "5" "pro" [1, 0] wSlides
      "out" none).length = wSlides.length - 1 := by
  refine ⟨⟨by decide, by decide⟩, ?_⟩
  exact (scheduler_transition_results_complete wPromptGen wKlingGen (fun _ => 7) "5" "pro"
    [1, 0] wSlides "out" none (by decide) (by decide) (by decide)).1

theorem prompt_lookup_failure_before_provider_witness :
    lookupDict wPrompts (transitionKey "img/slide-02.png" "img/slide-03.png") = none ∧
    (generateSingleTransition (promptFileReaderGeneratePrompt wPrompts) wKlingGen 7
      "img/slide-02.png" "img/slide-03.png" "out/t.mp4" none "5" "pro").2 = false := by
  refine ⟨by decide, ?_⟩
  exact (prompt_lookup_failure_before_provider wPrompts wKlingGen 7 "img/slide-02.png"
    "img/slide-03.png" "out/t.mp4" none "5" "pro" (by decide)).2.2.1

/-- C3: a preview failure is caught and counted without stopping the
transition jobs, and any exception inside a single transition job — at the
prompt-generation stage or at the provider stage — is converted into a
failed result carrying the error, never escaping the worker. -/
theorem per_job_failure_isolation
    (previewPromptGen : String → Except PyErr String)
    (promptGen : String → String → Option String → Except PyErr String)
    (klingGen : String → Option String → String → String → String → String → Except PyErr Unit)
    (elapsedOf : Nat → Nat) (previewElapsed : Nat) (order : List Nat)
    (slides : List String) (outputDir : String) (contexts : Option (List String))
    (duration mode : String) (batchElapsed : Nat) (err : PyErr)
    (hdist : ∀ i, i < slides.length → ∀ j, j < slides.length → i ≠ j →
      trailingNum (slides.getD i "") ≠ trailingNum (slides.getD j ""))
    (horder : order.Perm (List.range (slides.length - 1)))
    (hpf : generatePreviewVideo previewPromptGen klingGen previewElapsed
      (slides.getD 0 "") outputDir duration mode = .error err) :
    ((generateAllMaterials previewPromptGen promptGen klingGen elapsedOf previewElapsed
      order slides outputDir contexts duration mode false batchElapsed).1.preview = none) ∧
    ((generateAllMaterials previewPromptGen promptGen klingGen elapsedOf previewElapsed
      order slides outputDir contexts duration mode false batchElapsed).1.transitions =
      generateTransitionVideos promptGen klingGen elapsedOf duration mode order slides
        outputDir contexts) ∧
    ((generateAllMaterials previewPromptGen promptGen klingGen elapsedOf previewElapsed
      order slides outputDir contexts duration mode false batchElapsed).1.transitions.length =
      slides.length - 1) ∧
    ((generateAllMaterials previewPromptGen promptGen klingGen elapsedOf previewElapsed
      order slides outputDir contexts duration mode false batchElapsed).1.failed_count =
      1 + (generateAllMaterials previewPromptGen promptGen klingGen elapsedOf previewElapsed
        order slides outputDir contexts duration mode false batchElapsed).1.transitions.countP
          (fun kv => !kv.2.success)) ∧
    (∀ sf st op cc d m el e2, promptGen sf st cc = .error e2 →
      generateSingleTransition promptGen klingGen el sf st op cc d m =
        ({ from_to := transitionKey sf st, video_path := op, prompt := "", duration := 0,
           success := false, error := some e2 }, false)) ∧
    (∀ sf st op cc d m el p e2, promptGen sf st cc = .ok p →
      klingGen sf (some st) p op d m = .error e2 →
      generateSingleTransition promptGen klingGen el sf st op cc d m =
        ({ from_to := transitionKey sf st, video_path := op, prompt := "", duration := 0,
           success := false, error := some e2 }, true)) := by
  have hdist' : ∀ i j, i < slides.length → j < slides.length → i ≠ j →
      trailingNum (slides.getD i "") ≠ trailingNum (slides.getD j "") :=
    fun i j hi hj => hdist i hi j hj
  refine ⟨?_, ?_, ?_, ?_, ?_, ?_⟩
  · simp only [generateAllMaterials]
    rw [hpf]
    rfl
  · rfl
  · show (generateTransitionVideos promptGen klingGen elapsedOf duration mode order slides
      outputDir contexts).length = slides.length - 1
    rw [generateTransitionVideos_eq_map promptGen klingGen elapsedOf duration mode order
      slides outputDir contexts hdist' horder]
    rw [List.length_map, horder.length_eq, List.length_range]
  · simp only [generateAllMaterials]
    rw [hpf]
    rfl
  · intro sf st op cc d m el e2 h
    simp [generateSingleTransition, h]
  · intro sf st op cc d m el p e2 h1 h2
    simp [generateSingleTransition, h1, h2]

/-- C7: after all jobs finish, `total_duration` is the wall-clock reading
across the whole batch — independent of every per-job duration —
`success_count` and `failed_count` partition the attempted jobs (the
preview when attempted plus all N-1 transitions), and the aggregate is
persisted unchanged to the metadata file. -/
theorem batch_aggregate_wall_clock
    (previewPromptGen : String → Except PyErr String)
    (promptGen : String → String → Option String → Except PyErr String)
    (klingGen : String → Option String → String → String → String → String → Except PyErr Unit)
    (elapsedOf : Nat → Nat) (previewElapsed : Nat) (order : List Nat)
    (slides : List String) (outputDir : String) (contexts : Option (List String))
    (duration mode : String) (skipPreview : Bool) (batchElapsed : Nat)
    (hdist : ∀ i, i < slides.length → ∀ j, j < slides.length → i ≠ j →
      trailingNum (slides.getD i "") ≠ trailingNum (slides.getD j ""))
    (horder : order.Perm (List.range (slides.length - 1))) :
    ((generateAllMaterials previewPromptGen promptGen klingGen elapsedOf previewElapsed
      order slides outputDir contexts duration mode skipPreview batchElapsed).1.total_duration =
      batchElapsed) ∧
    ((generateAllMaterials previewPromptGen promptGen klingGen elapsedOf previewElapsed
      order slides outputDir contexts duration mode skipPreview batchElapsed).1.success_count +
     (generateAllMaterials previewPromptGen promptGen klingGen elapsedOf previewElapsed
      order slides outputDir contexts duration mode skipPreview batchElapsed).1.failed_count =
      (if skipPreview then 0 else 1) + (slides.length - 1)) ∧
    ((generateAllMaterials previewPromptGen promptGen klingGen elapsedOf previewElapsed
      order slides outputDir contexts duration mode skipPreview batchElapsed).2 =
      (outputDir ++ "/video_metadata.json",
       (generateAllMaterials previewPromptGen promptGen klingGen elapsedOf previewElapsed
        order slides outputDir contexts duration mode skipPreview batchElapsed).1)) := by
  have hdist' : ∀ i j, i < slides.length → j < slides.length → i ≠ j →
      trailingNum (slides.getD i "") ≠ trailingNum (slides.getD j "") :=
    fun i j hi hj => hdist i hi j hj
  have hcnt : (generateTransitionVideos promptGen klingGen elapsedOf duration mode order
      slides outputDir contexts).countP (fun kv => kv.2.success) +
      (generateTransitionVideos promptGen klingGen elapsedOf duration mode order slides
        outputDir contexts).countP (fun kv => !kv.2.success) =
      slides.length - 1 := by
    rw [countP_split]
    rw [generateTransitionVideos_eq_map promptGen klingGen elapsedOf duration mode order
      slides outputDir contexts hdist' horder]
    rw [List.length_map, horder.length_eq, List.length_range]
  refine ⟨rfl, ?_, rfl⟩
  by_cases hskip : skipPreview
  · simp only [hskip, if_true]
    show 0 + (generateTransitionVideos promptGen klingGen elapsedOf duration mode order
      slides outputDir contexts).countP (fun kv => kv.2.success) +
      (0 + (generateTransitionVideos promptGen klingGen elapsedOf duration mode order slides
        outputDir contexts).countP (fun kv => !kv.2.success)) = 0 + (slides.length - 1)
    omega
  · simp only [Bool.not_eq_true] at hskip
    simp only [hskip, Bool.false_eq_true, if_false]
    cases hpre : generatePreviewVideo previewPromptGen klingGen previewElapsed
      (slides.getD 0 "") outputDir duration mode with
    | ok r =>
      simp only [generateAllMaterials, hskip, Bool.false_eq_true, if_false]
      rw [hpre]
      show 1 + (generateTransitionVideos promptGen klingGen elapsedOf duration mode order
        slides outputDir contexts).countP (fun kv => kv.2.success) +
        (0 + (generateTransitionVideos promptGen klingGen elapsedOf duration mode order slides
          outputDir contexts).countP (fun kv => !kv.2.success)) = 1 + (slides.length - 1)
      omega
    | error e =>
      simp only [generateAllMaterials, hskip, Bool.false_eq_true, if_false]
      rw [hpre]
      show 0 + (generateTransitionVideos promptGen klingGen elapsedOf duration mode order
        slides outputDir contexts).countP (fun kv => kv.2.success) +
        (1 + (generateTransitionVideos promptGen klingGen elapsedOf duration mode order slides
          outputDir contexts).countP (fun kv => !kv.2.success)) = 1 + (slides.length - 1)
      omega

theorem per_job_failure_isolation_witness :
    (generatePreviewVideo wPreviewPromptFail wKlingGen 3 (wSlides.getD 0 "") "out" "5" "pro" =
      .error (.klingAPIError "boom")) ∧
    (generateAllMaterials wPreviewPromptFail wPromptGen wKlingGen (fun _ => 7) 3 [1, 0]
      wSlides "out" none "5" "pro" false 42).1.preview = none := by
  refine ⟨rfl, ?_⟩
  exact (per_job_failure_isolation wPreviewPromptFail wPromptGen wKlingGen (fun _ => 7) 3
    [1, 0] wSlides "out" none "5" "pro" 42 (.klingAPIError "boom") (by decide) (by decide)
    rfl).1

theorem batch_aggregate_wall_clock_witness :
    ([1, 0] : List Nat).Perm (List.range (wSlides.length - 1)) ∧
    (generateAllMaterials wPreviewPromptFail wPromptGen wKlingGen (fun _ => 7) 3 [1, 0]
      wSlides "out" none "5" "pro" false 42).1.total_duration = 42 := by
  refine ⟨by decide, ?_⟩
  exact (batch_aggregate_wall_clock wPreviewPromptFail wPromptGen wKlingGen (fun _ => 7) 3
    [1, 0] wSlides "out" none "5" "pro" false 42 (by decide) (by decide)).1

/-- C8: on every exit path of `compose_full_ppt_video` the scoped temp
directory is removed before return, the run succeeds exactly when no stage
failed, and success implies the final concatenation ran and succeeded on
the built sequence — a failing step aborts with the failing stage
reported and no output is passed off as complete. -/
theorem compose_cleanup_and_abort (fsExists : String → Bool) (runOk : FfmpegJob → Bool)
    (slides : List String) (transitionsDict : List (String × String))
    (outputPath : String) (slideDuration : Nat) (includePreview : Bool)
    (previewVideoPath : Option String) (resolution : String) (fps : Nat) (tempDir : String) :
    (compose_full_ppt_video fsExists runOk slides transitionsDict outputPath slideDuration
      includePreview previewVideoPath resolution fps tempDir).tempDirRemoved = true ∧
    ((compose_full_ppt_video fsExists runOk slides transitionsDict outputPath slideDuration
      includePreview previewVideoPath resolution fps tempDir).success = true ↔
     (compose_full_ppt_video fsExists runOk slides transitionsDict outputPath slideDuration
      includePreview previewVideoPath resolution fps tempDir).failedStage = none) ∧
    ((compose_full_ppt_video fsExists runOk slides transitionsDict outputPath slideDuration
      includePreview previewVideoPath resolution fps tempDir).success = true →
     concatVideos fsExists runOk
       (compose_full_ppt_video fsExists runOk slides transitionsDict outputPath slideDuration
         includePreview previewVideoPath resolution fps tempDir).sequence
       outputPath resolution fps = true) := by
  cases h : buildStatics fsExists runOk slideDuration resolution fps tempDir
    slides.tail [] with
  | error num =>
    refine ⟨rfl, ?_, ?_⟩ <;> simp [compose_full_ppt_video, composeTryBody, h]
  | ok sv =>
    by_cases hseq : buildSequence fsExists slides transitionsDict sv includePreview
      previewVideoPath = []
    · refine ⟨rfl, ?_, ?_⟩ <;> simp [compose_full_ppt_video, composeTryBody, h, hseq]
    · by_cases hc : concatVideos fsExists runOk
        (buildSequence fsExists slides transitionsDict sv includePreview previewVideoPath)
        outputPath resolution fps = true
      · refine ⟨rfl, ?_, ?_⟩ <;> simp [compose_full_ppt_video, composeTryBody, h, hseq, hc]
      · simp only [Bool.not_eq_true] at hc
        refine ⟨rfl, ?_, ?_⟩ <;> simp [compose_full_ppt_video, composeTryBody, h, hseq, hc]

/-- C2: with 4 slides, a present and requested preview, and transition
(2-3) missing, the composer builds the render sequence
[preview, transition(1-2), static(2), static(3), transition(3-4),
static(4)] and still completes: the gap is skipped and the arrival static
clip keeps its position. -/
theorem compose_skips_missing_transition :
    (compose_full_ppt_video (fun _ => true) (fun _ => true) c2Slides c2Transitions
      "out/full_ppt_video.mp4" 2 true (some "videos/preview.mp4") "1920x1080" 24
      "tmp").sequence =
    ["videos/preview.mp4", "videos/transition_01_to_02.mp4", "tmp/slide-02-static.mp4",
     "tmp/slide-03-static.mp4", "videos/transition_03_to_04.mp4",
     "tmp/slide-04-static.mp4"] ∧
    (compose_full_ppt_video (fun _ => true) (fun _ => true) c2Slides c2Transitions
      "out/full_ppt_video.mp4" 2 true (some "videos/preview.mp4") "1920x1080" 24
      "tmp").success = true := by
  exact ⟨by decide, by decide⟩

theorem buildSequence_no_preview (fsExists : String → Bool) (slides : List String)
    (transitionsDict staticVideos : List (String × String)) (pv : Option String) :
    buildSequence fsExists slides transitionsDict staticVideos false pv =
    buildSequence fsExists slides transitionsDict staticVideos false none := by
  cases pv <;> rfl

/-- C9: the composer call of the pipeline fixes the include-preview flag to
false, so its result — the render sequence included — is independent of
the generated preview, and a sequence built with the flag false never
contains a preview element. -/
theorem pipeline_excludes_preview (fsExists : String → Bool) (runOk : FfmpegJob → Bool)
    (slides : List String) (materials : AllMaterials) (outputDir : String)
    (slideDuration : Nat) (skipPreview : Bool) (tempDir : String) :
    pipelineComposeCall fsExists runOk slides materials outputDir slideDuration skipPreview
      tempDir =
    pipelineComposeCall fsExists runOk slides { materials with preview := none } outputDir
      slideDuration skipPreview tempDir ∧
    (∀ staticVideos pv, buildSequence fsExists slides (pipelineTransitionsDict materials)
      staticVideos false pv =
      buildSequence fsExists slides (pipelineTransitionsDict materials) staticVideos
        false none) := by
  constructor
  · have hD : pipelineTransitionsDict { materials with preview := none } =
        pipelineTransitionsDict materials := rfl
    have hbody : composeTryBody fsExists runOk slides (pipelineTransitionsDict materials)
        (outputDir ++ "/full_ppt_video.mp4") slideDuration false
        (pipelinePreviewVideo materials skipPreview) "1920x1080" 24 tempDir =
        composeTryBody fsExists runOk slides (pipelineTransitionsDict materials)
        (outputDir ++ "/full_ppt_video.mp4") slideDuration false
        (pipelinePreviewVideo { materials with preview := none } skipPreview) "1920x1080"
        24 tempDir := by
      unfold composeTryBody
      cases h : buildStatics fsExists runOk slideDuration "1920x1080" 24 tempDir
        (slides.drop 1) [] with
      | error num => rfl
      | ok sv =>
        dsimp only
        rw [buildSequence_no_preview fsExists slides (pipelineTransitionsDict materials) sv
          (pipelinePreviewVideo materials skipPreview),
          buildSequence_no_preview fsExists slides (pipelineTransitionsDict materials) sv
            (pipelinePreviewVideo { materials with preview := none } skipPreview)]
    unfold pipelineComposeCall
    rw [hD]
    unfold compose_full_ppt_video
    rw [hbody]
  · intro staticVideos pv
    exact buildSequence_no_preview fsExists slides (pipelineTransitionsDict materials)
      staticVideos pv

theorem poolStep_invariant {s s' : PoolState} (h : PoolStep s s')
    (hinv : s.running.length ≤ s.maxWorkers) :
    s'.running.length ≤ s'.maxWorkers ∧ s'.maxWorkers = s.maxWorkers := by
  cases h with
  | start i hi hcap =>
    refine ⟨?_, rfl⟩
    show (i :: s.running).length ≤ s.maxWorkers
    simpa using hcap
  | finish i hi =>
    refine ⟨?_, rfl⟩
    show (s.running.erase i).length ≤ s.maxWorkers
    exact le_trans (List.Sublist.length_le (List.erase_sublist i s.running)) hinv

/-- C4: in every state the bounded pool can reach from the batch-start
state, at most `maxConcurrent` transition jobs are running — so at no
point do more than `max_concurrent` jobs hold an unresolved provider task
simultaneously, for any number of dispatched jobs. -/
theorem pool_bounds_concurrency (numTransitions maxConcurrent : Nat) (s : PoolState)
    (h : Relation.ReflTransGen PoolStep (schedulerInit numTransitions maxConcurrent) s) :
    s.running.length ≤ maxConcurrent := by
  have key : ∀ t, Relation.ReflTransGen PoolStep (schedulerInit numTransitions maxConcurrent)
      t → t.running.length ≤ t.maxWorkers ∧ t.maxWorkers = maxConcurrent := by
    intro t ht
    induction ht with
    | refl => exact ⟨by simp [schedulerInit], rfl⟩
    | tail hab hbc ih =>
      obtain ⟨h1, h2⟩ := ih
      obtain ⟨h3, h4⟩ := poolStep_invariant hbc h1
      exact ⟨h3, h4.trans h2⟩
  obtain ⟨h1, h2⟩ := key s h
  omega

theorem pool_bounds_concurrency_witness :
    Relation.ReflTransGen PoolStep (schedulerInit 2 3) poolDemoState ∧
    poolDemoState.running.length ≤ 3 := by
  have hstep : PoolStep (schedulerInit 2 3) poolDemoState :=
    PoolStep.start (schedulerInit 2 3) 0 (by decide) (by decide)
  exact ⟨Relation.ReflTransGen.single hstep,
    pool_bounds_concurrency 2 3 poolDemoState (Relation.ReflTransGen.single hstep)⟩
